import Mathlib

set_option autoImplicit false

/-!
Verification development for the incremental_merge repository
(src/incremental_merge.py and src/extract.py): a shallow embedding in
Lean 4 of the argument parsing, configuration verification, media
metadata probing, batch segmentation, segment-merge loop, and frame
extractor of the two Python scripts, together with theorems settling
the specification claims against that embedding.

Machine integers are modelled by Nat/Int (Python integers are unbounded,
so no wraparound modelling is needed); fallible code (assertions,
argparse errors, subprocess failures, unbound-name errors) returns
Except; the filesystem is an explicit state value; external processes
are modelled by their observable interface (command line, stdout lines,
exit status).
-/

namespace IncrementalMerge

/-! ## Constants of src/incremental_merge.py (lines 12-38) -/

def CHUNK_SIZE : Nat := 4096

def RACE_SAFETY_WAIT_SECONDS : Nat := 3

/-! ## Batch segmentation (merge_images_loop, src/incremental_merge.py lines 251-264)

`frame_count = int(video_info["frame_count"])`, `num_segments = frame_count // args.batch_size`;
for segment index `i`, `begin = args.start_index + i * args.batch_size`,
`end = begin + args.batch_size - 1`, and if `i + 1 == num_segments` then
`end = args.start_index + frame_count - 1`. -/

def numSegments (frameCount batchSize : Nat) : Nat := frameCount / batchSize

def segBegin (startIndex batchSize i : Nat) : Nat := startIndex + i * batchSize

def segEnd (startIndex batchSize frameCount i : Nat) : Nat :=
  if i + 1 = numSegments frameCount batchSize then startIndex + frameCount - 1
  else segBegin startIndex batchSize i + batchSize - 1

/-- Frame (image file index) `f` is part of some segment's batch range in the
merge loop of src/incremental_merge.py. -/
def FrameMerged (startIndex batchSize frameCount f : Nat) : Prop :=
  ∃ i < numSegments frameCount batchSize,
    segBegin startIndex batchSize i ≤ f ∧ f ≤ segEnd startIndex batchSize frameCount i

instance instDecidableFrameMerged (s b fc f : Nat) : Decidable (FrameMerged s b fc f) := by
  unfold FrameMerged
  infer_instance

/-- The segment-end formula as written in the claim:
`start + min((i+1)*batch, frame_count) - 1`. This is the claim's wording,
kept separate so it can be compared with `segEnd`, which is taken from the
source. -/
def claimSegEnd (startIndex batchSize frameCount i : Nat) : Nat :=
  startIndex + min ((i + 1) * batchSize) frameCount - 1


structure FS where
  imageOn : Nat → Bool
  segmentOn : Nat → Bool
  configOn : Bool

inductive Effect where
  | createSegment (i : Nat)
  | deleteImage (n : Nat)
  | writeConfig
  | writeMasterConcat
  | writeOutput
deriving Repr, DecidableEq

def FS.applyOne (fs : FS) : Effect → FS
  | .createSegment i => { fs with segmentOn := fun j => j = i || fs.segmentOn j }
  | .deleteImage n => { fs with imageOn := fun m => if m = n then false else fs.imageOn m }
  | .writeConfig => { fs with configOn := true }
  | .writeMasterConcat => fs
  | .writeOutput => fs

def FS.apply (fs : FS) (effs : List Effect) : FS := effs.foldl FS.applyOne fs

/-! ## Progress tracking (ffmpeg_track_progress, src/incremental_merge.py lines 176-192)

The function spawns the external command with `-progress pipe:1`, consumes
its stdout line by line (each stripped line is split on the equals sign;
a two-token line whose key is `frame` advances the progress bar by
`int(value) - curr_n`, asserting this is non-negative), closes the pipe,
binds `return_code = proc.wait()` — and then returns without ever
inspecting `return_code`: a non-zero exit status of the child is silently
discarded. -/

inductive PyError where
  | assertProgressNonneg
  | valueErrorInt (s : String)
  | missingImage (n : Nat)
  | nameErrorUnboundI
  | indexErrorEmptyFiles
  | assertConcatLengths
deriving Repr, DecidableEq

def ffmpegProgressToken : String := "frame"

def trackProgressGo (currN : Int) : List String → Except PyError Unit
  | [] => .ok ()
  | line :: rest =>
    match line.trim.splitOn ("=") with
    | [k, v] =>
      if k = ffmpegProgressToken then
        match v.toInt? with
        | none => .error (.valueErrorInt v)
        | some parsed =>
          let n := parsed - currN
          if n ≥ 0 then trackProgressGo (currN + n) rest
          else .error .assertProgressNonneg
      else trackProgressGo currN rest
    | _ => trackProgressGo currN rest

/-- Embedding of ffmpeg_track_progress: its stdout processing followed by
`return_code = proc.wait()`. The exit code parameter is the waited-for
return code; note it does not influence the result — the Python code binds
it to a local variable and never reads it. -/
def ffmpeg_track_progress (progressLines : List String) (exitCode : Int) : Except PyError Unit :=
  match trackProgressGo 0 progressLines with
  | .error e => .error e
  | .ok () =>
    let _return_code := exitCode
    .ok ()

/-! ## Concat manifest generation (generate_segment_concat_file, lines 194-207) -/

def sq : String := (Char.ofNat 39).toString

def concatHeaderLine : String := "ffconcat version 1.0"

def fileEntryTag : String := "file "

def durationEntryTag : String := "duration "

/-- Embedding of generate_segment_concat_file: asserts
`len(files) == len(durations)`, writes the header line, then for each index
a `file '<name>'` line and a `duration <d>` line, and finally a trailing
unquoted `file <last name>` entry (`files[-1]` raises IndexError on an empty
list). Durations are carried as their source text; the numeric value plays
no role in any claim. The result is the list of lines written. -/
def generate_segment_concat_file (files durations : List String) :
    Except PyError (List String) :=
  if files.length ≠ durations.length then .error .assertConcatLengths
  else
    match files.getLast? with
    | none => .error .indexErrorEmptyFiles
    | some last =>
      .ok (concatHeaderLine ::
        ((files.zip durations).flatMap fun p =>
          [fileEntryTag ++ sq ++ p.1 ++ sq, durationEntryTag ++ p.2]) ++
        [fileEntryTag ++ last])

/-! ## Segment merging (merge_images, src/incremental_merge.py lines 209-240) -/

/-- Result of a successful merge_images call: the temporary segment file was
renamed to the segment with this batch index, and these image files were
deleted. The concat manifest field records a written manifest as
(index in its filename, lines); on the source as given it is always `none`:
the variable-frame-rate branch never reaches manifest generation (see below). -/
structure MergeResult where
  renamedSegment : Nat
  deletedImages : List Nat
  concatManifest : Option (Nat × List String)
deriving Repr, DecidableEq

/-- One entry of the pymediainfo track list. The video track carries the
declared frame count (`int(video_info["frame_count"])`), the frame-rate mode
string and the frame rate (used only textually, for the `-framerate`
argument). -/
structure Track where
  track_type : String
  frame_count : Nat
  frame_rate_mode : String
  frame_rate : String
deriving Repr, DecidableEq

/-- Embedding of merge_images. It first asserts that every image file with
index in `[b, e]` exists (first missing index aborts). On the
constant-frame-rate path it runs the external merge through
ffmpeg_track_progress (whose exit status is discarded), then renames the
temporary file to the final segment name and deletes the batch's images —
the rename is unconditional on the exit status. On the variable-frame-rate
path, line 229 evaluates `CONCAT_FILENAME_FORMAT % i`: under Python 3
scoping the comprehension variable of line 210 does not escape, no other
`i` is bound in merge_images or at module scope, so the name lookup raises
NameError before any manifest is generated. -/
def merge_images (video : Track) (fs : FS) (b e segIdx : Nat)
    (durations : Option (List String)) (progressLines : List String)
    (exitCode : Int) : Except PyError MergeResult :=
  let idxs := List.range' b (e + 1 - b)
  match idxs.find? (fun n => ! fs.imageOn n) with
  | some n => .error (.missingImage n)
  | none =>
    if video.frame_rate_mode = "CFR" then
      match ffmpeg_track_progress progressLines exitCode with
      | .error er => .error er
      | .ok () =>
        .ok { renamedSegment := segIdx, deletedImages := idxs, concatManifest := none }
    else
      .error .nameErrorUnboundI

def mergeEffects (r : MergeResult) : List Effect :=
  Effect.createSegment r.renamedSegment :: r.deletedImages.map Effect.deleteImage

/-! ## Merge loop step (merge_images_loop body, lines 255-274)

For segment index `i`: if the segment file already exists the body does
nothing except record the segment name; otherwise it computes the batch
range, slices the duration list (`durations[begin:end+1]`), polls for the
existence of the batch's LAST image file (sleeping `poll_time` between
polls, with no timeout: on a filesystem where that file never appears the
loop blocks forever), sleeps the fixed race-safety delay, and calls
merge_images. -/

inductive StepOutcome where
  | skipped (segIdx : Nat)
  | merged (segIdx : Nat) (r : MergeResult)
  | blocked
  | aborted (e : PyError)
deriving Repr, DecidableEq

def sliceDurations (durations : Option (List String)) (b e : Nat) : Option (List String) :=
  durations.map fun ds => (ds.drop b).take (e + 1 - b)

def merge_images_step (video : Track) (fs : FS) (startIndex batchSize i : Nat)
    (durations : Option (List String)) (progressLines : List String)
    (exitCode : Int) : StepOutcome :=
  if fs.segmentOn i then .skipped i
  else
    let b := segBegin startIndex batchSize i
    let e := segEnd startIndex batchSize video.frame_count i
    let segDurations := sliceDurations durations b e
    if fs.imageOn e then
      match merge_images video fs b e i segDurations progressLines exitCode with
      | .ok r => .merged i r
      | .error er => .aborted er
    else .blocked

def stepEffects : StepOutcome → List Effect
  | .skipped _ => []
  | .merged _ r => mergeEffects r
  | .blocked => []
  | .aborted _ => []

def stepSegName : StepOutcome → Option Nat
  | .skipped j => some j
  | .merged j _ => some j
  | .blocked => none
  | .aborted _ => none

/-! ## The full merge loop (merge_images_loop, lines 242-281) -/

inductive LoopOutcome where
  | finished (effects : List Effect) (segments : List Nat)
  | blockedAt (i : Nat) (effects : List Effect) (segments : List Nat)
  | abortedAt (i : Nat) (e : PyError) (effects : List Effect) (segments : List Nat)
deriving Repr, DecidableEq

def loopGo (video : Track) (startIndex batchSize : Nat)
    (durations : Option (List String)) (progress : Nat → List String)
    (exits : Nat → Int) :
    List Nat → FS → List Effect → List Nat → LoopOutcome
  | [], _, effs, segs => .finished effs segs
  | i :: rest, fs, effs, segs =>
    match merge_images_step video fs startIndex batchSize i durations (progress i) (exits i) with
    | .skipped j => loopGo video startIndex batchSize durations progress exits rest fs effs (segs ++ [j])
    | .merged j r =>
      loopGo video startIndex batchSize durations progress exits rest
        (fs.apply (mergeEffects r)) (effs ++ mergeEffects r) (segs ++ [j])
    | .blocked => .blockedAt i effs segs
    | .aborted e => .abortedAt i e effs segs

def merge_images_loop (video : Track) (startIndex batchSize : Nat)
    (durations : Option (List String)) (progress : Nat → List String)
    (exits : Nat → Int) (fs : FS) : LoopOutcome :=
  loopGo video startIndex batchSize durations progress exits
    (List.range (numSegments video.frame_count batchSize)) fs [] []

/-! ## Command-line arguments (Arguments._parse_args, src/incremental_merge.py lines 44-63)

argparse values: each flag is optional; `start_index`, `batch_size` and
`poll_time` carry their defaults 0, 1800 and 60. The code then branches on
the truthiness of `resume` (`None` and the empty string are both falsy in
Python): if falsy, all three of input/work/output must have been supplied or
`parser.error` aborts; if truthy, `work_directory` is overwritten by the
resume value and the triple, if supplied, is silently accepted and ignored. -/

structure RawArgs where
  resume : Option String := none
  input_filename : Option String := none
  work_directory : Option String := none
  output_filename : Option String := none
  start_index : Int := 0
  batch_size : Int := 1800
  poll_time : Int := 60
deriving Repr, DecidableEq

def pyTruthy : Option String → Bool
  | none => false
  | some s => ! s.isEmpty

def parse_args (r : RawArgs) : Except String RawArgs :=
  if pyTruthy r.resume then .ok { r with work_directory := r.resume }
  else if r.input_filename.isNone || r.work_directory.isNone || r.output_filename.isNone then
    .error ("Input and output filenames must be specified if --resume is not set.")
  else .ok r

/-! ## Input checksum (Arguments._infile_md5sum, lines 65-71)

The file is read in fixed 4096-byte chunks (`iter(lambda: f.read(4096), b"")`)
and each chunk is fed to the incremental md5 state. The digest is a function
of the concatenated chunk stream; the embedding keeps that stream (its
concatenation) as the canonical value determining the digest. -/

def readChunks (l : List Nat) : List (List Nat) :=
  if h : l = [] then []
  else l.take CHUNK_SIZE :: readChunks (l.drop CHUNK_SIZE)
termination_by l.length
decreasing_by
  have hl : 0 < l.length := List.length_pos.mpr h
  simp only [List.length_drop, CHUNK_SIZE]
  omega

def infile_md5sum (content : List Nat) : List Nat := (readChunks content).flatten

/-- State of the Arguments object after `__init__` (lines 73-91), plus a
count of how many times `_infile_md5sum` was invoked. On the new-run path
the input path must exist, the work directory is created, the numeric
preconditions are asserted and the checksum is computed (exactly once); on
the resume path only the work directory's existence is asserted and no
checksum is computed. Path absolutisation is modelled as the identity on
path strings. -/
structure ArgsState where
  resume : Option String
  input_filename : String
  work_directory : String
  output_filename : String
  start_index : Int
  batch_size : Int
  poll_time : Int
  md5 : Option (List Nat)
  md5Computations : Nat
deriving Repr, DecidableEq

def Arguments_init (r : RawArgs) (fileContent : String → Option (List Nat))
    (dirOn : String → Bool) : Except String ArgsState :=
  match parse_args r with
  | .error e => .error e
  | .ok pa =>
    let wd := pa.work_directory.getD ""
    if pyTruthy pa.resume then
      if dirOn wd then
        .ok { resume := pa.resume, input_filename := pa.input_filename.getD "",
              work_directory := wd, output_filename := pa.output_filename.getD "",
              start_index := pa.start_index, batch_size := pa.batch_size,
              poll_time := pa.poll_time, md5 := none, md5Computations := 0 }
      else .error ("assert work_directory exists")
    else
      match pa.input_filename with
      | none => .error ("unreachable: parse_args enforces input_filename")
      | some inp =>
        match fileContent inp with
        | none => .error ("assert input_filename exists")
        | some content =>
          if pa.start_index < 0 then .error ("assert start_index nonneg")
          else if pa.batch_size ≤ 0 then .error ("assert batch_size pos")
          else if pa.poll_time < 0 then .error ("assert poll_time nonneg")
          else
            .ok { resume := pa.resume, input_filename := inp, work_directory := wd,
                  output_filename := pa.output_filename.getD "",
                  start_index := pa.start_index, batch_size := pa.batch_size,
                  poll_time := pa.poll_time, md5 := some (infile_md5sum content),
                  md5Computations := 1 }

/-! ## Persisted configuration (make_config lines 96-106, verify_config lines 108-139)

make_config returns `None` exactly when `resume is not None` (note: identity
test, not truthiness); otherwise it copies every argparse field except
`resume`, including the md5 digest. The persisted JSON object has the same
seven fields, so the `keys()` equality assertion of line 136 always holds
between two well-formed configurations and dict equality is field-wise
equality, which the structure equality below mirrors. -/

structure PyConfig where
  input_filename : String
  work_directory : String
  output_filename : String
  start_index : Int
  batch_size : Int
  poll_time : Int
  md5 : Option (List Nat)
deriving Repr, DecidableEq

def make_config (a : ArgsState) : Option PyConfig :=
  if a.resume.isSome then none
  else some { input_filename := a.input_filename, work_directory := a.work_directory,
              output_filename := a.output_filename, start_index := a.start_index,
              batch_size := a.batch_size, poll_time := a.poll_time, md5 := a.md5 }

inductive VerifyError where
  | assertConfigOn
  | assertInputOn
  | assertWorkDirEq
  | configMismatch
deriving Repr, DecidableEq

/-- Embedding of verify_config. On a pure resume (`make_config` is `None`)
the persisted configuration must exist; the input path recovered from it
must still exist; the work directory must match; and every operational field
is copied from the persisted file into the active arguments (the md5 field
of the arguments is untouched). Otherwise, if no configuration file exists
the fresh one is written (the only write), and if one exists it must be
field-wise equal to the fresh one or the run aborts. The returned effect
list records any write to the configuration file. -/
def verify_config (a : ArgsState) (persisted : Option PyConfig)
    (inputOn : String → Bool) : Except VerifyError (ArgsState × List Effect) :=
  match make_config a with
  | none =>
    match persisted with
    | none => .error .assertConfigOn
    | some p =>
      if ¬ inputOn p.input_filename then .error .assertInputOn
      else if a.work_directory ≠ p.work_directory then .error .assertWorkDirEq
      else
        .ok ({ a with
                input_filename := p.input_filename,
                output_filename := p.output_filename,
                start_index := p.start_index,
                batch_size := p.batch_size,
                poll_time := p.poll_time }, [])
  | some c =>
    match persisted with
    | none => .ok (a, [Effect.writeConfig])
    | some p => if p = c then .ok (a, []) else .error .configMismatch

/-! ## Media metadata and duration probe (get_durations lines 141-159,
verify_input_and_get_durations lines 161-174)

The probe's stdout is a stream of lines; each stripped non-empty line must
start with the fixed prefix token `frame,` and split on commas into exactly
two tokens, the second being the frame's duration (carried here as its
source text; the float conversion plays no role in any claim). The probe
process's return code is bound at line 158 and discarded. -/

def durationLineTag : String := "frame,"

inductive MediaError where
  | assertDurationLineTag (line : String)
  | assertTwoTokens (line : String)
  | assertTrackCount
  | assertVideoTrack
  | assertAudioTrack
  | assertDurationCount (frameCount : Nat) (got : Nat)
deriving Repr, DecidableEq

def getDurationsGo : List String → Except MediaError (List String)
  | [] => .ok []
  | line :: rest =>
    let l := line.trim
    if l = "" then getDurationsGo rest
    else if ¬ l.startsWith durationLineTag then .error (.assertDurationLineTag l)
    else
      match l.splitOn (",") with
      | [_, v] =>
        match getDurationsGo rest with
        | .error e => .error e
        | .ok ds => .ok (v :: ds)
      | _ => .error (.assertTwoTokens l)

def get_durations (probeLines : List String) (exitCode : Int) :
    Except MediaError (List String) :=
  match getDurationsGo probeLines with
  | .error e => .error e
  | .ok ds =>
    let _return_code := exitCode
    .ok ds

/-- Embedding of verify_input_and_get_durations: asserts the three-track
shape with the video track at index 1 and the audio track at index 2; for a
video track whose frame-rate mode is not the string CFR it runs the probe
and asserts that the declared frame count equals the number of probed
durations, returning them; for CFR it returns `None`. -/
def verify_input_and_get_durations (tracks : List Track) (probeLines : List String)
    (probeExit : Int) : Except MediaError (Option (List String)) :=
  match tracks with
  | [_g, v, a] =>
    if v.track_type ≠ "Video" then .error .assertVideoTrack
    else if a.track_type ≠ "Audio" then .error .assertAudioTrack
    else if v.frame_rate_mode ≠ "CFR" then
      match get_durations probeLines probeExit with
      | .error e => .error e
      | .ok ds =>
        if v.frame_count = ds.length then .ok (some ds)
        else .error (.assertDurationCount v.frame_count ds.length)
    else .ok none
  | _ => .error .assertTrackCount

/-! ## Final mux (merge_segments, lines 283-295)

Writes the master concat manifest, then runs the external concatenation and
remux through ffmpeg_track_progress — whose exit status is, as everywhere,
discarded. -/

def merge_segments (muxLines : List String) (muxExit : Int) :
    List Effect × Option PyError :=
  match ffmpeg_track_progress muxLines muxExit with
  | .error e => ([Effect.writeMasterConcat], some e)
  | .ok () => ([Effect.writeMasterConcat, Effect.writeOutput], none)

/-! ## Top-level run (the __main__ block, lines 297-313)

Composes configuration verification, metadata probing, the merge loop and
the final mux, accumulating the effects performed before any abort. A
blocked wait (the external producer never writes the awaited image) is
reported as a distinguished non-result. -/

inductive RunError where
  | verifyErr (e : VerifyError)
  | mediaErr (e : MediaError)
  | loopErr (e : PyError)
  | loopBlocked
  | muxErr (e : PyError)
deriving Repr, DecidableEq

def main_run (a : ArgsState) (persisted : Option PyConfig) (inputOn : String → Bool)
    (tracks : List Track) (probeLines : List String) (probeExit : Int)
    (progress : Nat → List String) (exits : Nat → Int)
    (muxLines : List String) (muxExit : Int) (fs : FS) :
    List Effect × Option RunError :=
  match verify_config a persisted inputOn with
  | .error e => ([], some (.verifyErr e))
  | .ok (args, effs0) =>
    match verify_input_and_get_durations tracks probeLines probeExit with
    | .error e => (effs0, some (.mediaErr e))
    | .ok durations =>
      match tracks with
      | [_g, v, _a] =>
        match merge_images_loop v args.start_index.toNat args.batch_size.toNat
            durations progress exits (fs.apply effs0) with
        | .finished effs _segs =>
          let m := merge_segments muxLines muxExit
          (effs0 ++ effs ++ m.1, m.2.map RunError.muxErr)
        | .blockedAt _ effs _ => (effs0 ++ effs, some .loopBlocked)
        | .abortedAt _ e effs _ => (effs0 ++ effs, some (.loopErr e))
      | _ => (effs0, some (.mediaErr .assertTrackCount))

end IncrementalMerge

namespace ExtractScript

/-! ## Frame extractor (src/extract.py)

parse_args asserts the (absolutised) input path exists, the output path
differs from the input, the start index is non-negative and the requested
frame count is at least one. The main block then builds one command line —
`ffmpeg -i <input> -y -hide_banner -loglevel error -vf select=gte(n\,<start>)
-vframes <count> <output>` — and runs it through `subprocess.check_call`,
which raises (a fatal, unretried error) exactly when the child's exit status
is non-zero. Path absolutisation is modelled as the identity. -/

inductive ExtractError where
  | assertInputOn
  | assertDistinctPaths
  | assertStartNonneg
  | assertNumFramesPos
  | processFailed (code : Int)
deriving Repr, DecidableEq

def extract_parse_args (inputOn : String → Bool) (input output : String)
    (startIndex numFrames : Int) : Except ExtractError Unit :=
  if ¬ inputOn input then .error .assertInputOn
  else if input = output then .error .assertDistinctPaths
  else if startIndex < 0 then .error .assertStartNonneg
  else if numFrames < 1 then .error .assertNumFramesPos
  else .ok ()

def selectFilter (startIndex : Int) : String :=
  "select=gte(n\\," ++ toString startIndex ++ ")"

def extract_cmd (input output : String) (startIndex numFrames : Int) : List String :=
  ["ffmpeg"] ++ ["-i", input] ++ ["-y", "-hide_banner", "-loglevel", "error", "-vf"] ++
    [selectFilter startIndex] ++ ["-vframes", toString numFrames] ++ [output]

/-- Top-level behaviour of extract.py: the list of external invocations
performed, paired with the error (if any). `subprocess.check_call` is the
sole invocation; a non-zero exit is fatal and is not retried. -/
def extract_main (inputOn : String → Bool) (input output : String)
    (startIndex numFrames exitCode : Int) : List (List String) × Option ExtractError :=
  match extract_parse_args inputOn input output startIndex numFrames with
  | .error e => ([], some e)
  | .ok () =>
    ([extract_cmd input output startIndex numFrames],
      if exitCode = 0 then none else some (.processFailed exitCode))

end ExtractScript

namespace IncrementalMerge

/-! ## Concrete values used by witnesses and counterexamples -/

def fsAllImages : FS :=
  { imageOn := fun _ => true, segmentOn := fun _ => false, configOn := false }

def fsSeg0 : FS :=
  { imageOn := fun _ => false, segmentOn := fun j => j == 0, configOn := true }

def fsGap : FS :=
  { imageOn := fun n => n != 1, segmentOn := fun _ => false, configOn := true }

def cfrTrack : Track :=
  { track_type := "Video", frame_count := 5, frame_rate_mode := "CFR", frame_rate := "30" }

def cfrTrack3 : Track :=
  { track_type := "Video", frame_count := 3, frame_rate_mode := "CFR", frame_rate := "24" }

def vfrTrack : Track :=
  { track_type := "Video", frame_count := 2, frame_rate_mode := "VFR", frame_rate := "30" }

def vfr0Track : Track :=
  { track_type := "Video", frame_count := 0, frame_rate_mode := "VFR", frame_rate := "30" }

def audioTrack : Track :=
  { track_type := "Audio", frame_count := 0, frame_rate_mode := "", frame_rate := "" }

def generalTrack : Track :=
  { track_type := "General", frame_count := 0, frame_rate_mode := "", frame_rate := "" }

def rawBoth : RawArgs :=
  { resume := some ("/w"), input_filename := some ("/i"),
    work_directory := some ("/d"), output_filename := some ("/o") }

def rawNew : RawArgs :=
  { resume := none, input_filename := some ("/in.mp4"),
    work_directory := some ("/work"), output_filename := some ("/out.mp4") }

def argsNew : ArgsState :=
  { resume := none, input_filename := "/in.mp4", work_directory := "/work",
    output_filename := "/out.mp4", start_index := 0, batch_size := 1800,
    poll_time := 60, md5 := some [1, 2, 3], md5Computations := 1 }

def cfgNew : PyConfig :=
  { input_filename := "/in.mp4", work_directory := "/work",
    output_filename := "/out.mp4", start_index := 0, batch_size := 1800,
    poll_time := 60, md5 := some [1, 2, 3] }

/-- A persisted configuration that differs from `cfgNew` only in the start
index. -/
def cfgPrev : PyConfig :=
  { input_filename := "/in.mp4", work_directory := "/work",
    output_filename := "/out.mp4", start_index := 5, batch_size := 1800,
    poll_time := 60, md5 := some [1, 2, 3] }

end IncrementalMerge

namespace ExtractScript

def inOnSample : String → Bool := fun p => p == "/v.mp4"

end ExtractScript

namespace IncrementalMerge

/-! Helper lemmas about the segmentation arithmetic. -/

theorem numSegments_mul_le (frameCount batchSize : Nat) :
    numSegments frameCount batchSize * batchSize ≤ frameCount :=
  Nat.div_mul_le_self frameCount batchSize

theorem segEnd_last (s b fc : Nat) (h : 0 < numSegments fc b) :
    segEnd s b fc (numSegments fc b - 1) = s + fc - 1 := by
  unfold segEnd
  rw [if_pos (by omega)]

theorem segEnd_not_last (s b fc i : Nat) (h : i + 1 ≠ numSegments fc b) :
    segEnd s b fc i = s + (i + 1) * b - 1 := by
  unfold segEnd segBegin
  rw [if_neg h]
  ring_nf

theorem frameMerged_iff (s b fc f : Nat) (hb : 0 < b) :
    FrameMerged s b fc f ↔ 0 < numSegments fc b ∧ s ≤ f ∧ f < s + fc := by
  have hmul := numSegments_mul_le fc b
  constructor
  · rintro ⟨i, hi, hbeg, hend⟩
    have hfc : b ≤ fc := by
      have := Nat.one_le_div_iff hb |>.mp (by omega : 1 ≤ numSegments fc b)
      omega
    refine ⟨by omega, ?_, ?_⟩
    · unfold segBegin at hbeg
      omega
    · by_cases hcase : i + 1 = numSegments fc b
      · rw [segEnd, if_pos hcase] at hend
        omega
      · rw [segEnd_not_last s b fc i hcase] at hend
        have h1 : i + 1 ≤ numSegments fc b := by omega
        have h2 : (i + 1) * b ≤ numSegments fc b * b := Nat.mul_le_mul_right b h1
        have h3 : 0 < (i + 1) * b := by positivity
        omega
  · rintro ⟨hns, hsf, hfu⟩
    set ns := numSegments fc b with hns_def
    set d := f - s with hd
    refine ⟨min (d / b) (ns - 1), by omega, ?_, ?_⟩
    · unfold segBegin
      have h1 : min (d / b) (ns - 1) * b ≤ d / b * b := by
        exact Nat.mul_le_mul_right b (Nat.min_le_left _ _)
      have h2 : d / b * b ≤ d := Nat.div_mul_le_self d b
      omega
    · have hfc : b ≤ fc := by
        have := Nat.one_le_div_iff hb |>.mp (by omega : 1 ≤ ns)
        omega
      rcases le_or_lt (ns - 1) (d / b) with hle | hlt
      · rw [min_eq_right hle]
        rw [segEnd, if_pos (by omega)]
        omega
      · rw [min_eq_left (by omega)]
        by_cases hcase : d / b + 1 = ns
        · rw [segEnd, if_pos hcase]
          omega
        · rw [segEnd_not_last s b fc _ hcase]
          have hmod := Nat.div_add_mod d b
          have hmlt : d % b < b := Nat.mod_lt d hb
          have h4 : (d / b + 1) * b = b * (d / b) + b := by ring
          omega

/-- Claim C1. As stated, the claim is false on the code: for
`frame_count = 5`, `batch = 3`, `start = 0`, the single (final) segment ends
at image index `4` in the code (`end = start + frame_count - 1`), while the
claim's formula `start + min((i+1)*batch, frame_count) - 1` gives `2`; and
the frames at indices `num_segments*batch = 3` and `num_segments*batch + 1
= 4` — frames beyond `num_segments*batch` — are merged. -/
theorem C1_counterexample :
    segEnd 0 3 5 0 ≠ claimSegEnd 0 3 5 0 ∧
    FrameMerged 0 3 5 (numSegments 5 3 * 3) ∧
    FrameMerged 0 3 5 (numSegments 5 3 * 3 + 1) := by
  refine ⟨by decide, by decide, by decide⟩

/-- Claim C1 (amended). The merge loop processes exactly
`num_segments = frame_count / batch` segment indices; a non-final segment `i`
covers image files `start + i*batch` through `start + (i+1)*batch - 1`; the
final segment covers through `start + frame_count - 1`, absorbing the
remainder; and the set of merged frames is exactly
`[start, start + frame_count)` whenever at least one segment exists (when
`frame_count < batch`, `num_segments = 0` and no frame is merged at all). -/
theorem C1_segmentation (s b fc i f : Nat) (hb : 0 < b) :
    (List.range (numSegments fc b)).length = fc / b ∧
    segBegin s b i = s + i * b ∧
    (i + 1 < numSegments fc b → segEnd s b fc i = s + (i + 1) * b - 1) ∧
    (0 < numSegments fc b → segEnd s b fc (numSegments fc b - 1) = s + fc - 1) ∧
    (FrameMerged s b fc f ↔ 0 < numSegments fc b ∧ s ≤ f ∧ f < s + fc) := by
  refine ⟨by simp [numSegments], rfl, ?_, segEnd_last s b fc, frameMerged_iff s b fc f hb⟩
  intro hi
  exact segEnd_not_last s b fc i (by omega)

/-- Witness for C1_segmentation at `start = 7`, `batch = 2`, `frame_count = 5`,
`i = 1`, `f = 11`. -/
theorem C1_segmentation_witness :
    0 < 2 ∧
    ((List.range (numSegments 5 2)).length = 5 / 2 ∧
      segBegin 7 2 1 = 7 + 1 * 2 ∧
      (1 + 1 < numSegments 5 2 → segEnd 7 2 5 1 = 7 + (1 + 1) * 2 - 1) ∧
      (0 < numSegments 5 2 → segEnd 7 2 5 (numSegments 5 2 - 1) = 7 + 5 - 1) ∧
      (FrameMerged 7 2 5 11 ↔ 0 < numSegments 5 2 ∧ 7 ≤ 11 ∧ 11 < 7 + 5)) :=
  ⟨by decide, C1_segmentation 7 2 5 1 11 (by decide)⟩

/-- Claim C2. The claim states that a non-zero exit status of any external
invocation aborts the run, and that the temporary segment is renamed only
after a successful exit. The code contradicts this: `return_code =
proc.wait()` is bound and never inspected in both ffmpeg_track_progress
(line 192) and get_durations (line 158), so with exit status 1 the duration
probe still returns its parsed list, ffmpeg_track_progress returns normally,
merge_images still renames the temporary file to the final segment name and
deletes the batch's source images, and the final mux still reports success.
The temp-then-rename pattern and the bound-but-unused `return_code` make the
spec the evident intent and the missing check a slip in the code. -/
theorem C2_exit_status_ignored :
    ffmpeg_track_progress [] 1 = .ok () ∧
    get_durations [] 1 = .ok [] ∧
    merge_images cfrTrack fsAllImages 0 1 0 none [] 1 =
      .ok { renamedSegment := 0, deletedImages := [0, 1], concatManifest := none } ∧
    merge_segments [] 1 = ([Effect.writeMasterConcat, Effect.writeOutput], none) := by
  refine ⟨rfl, rfl, ?_, rfl⟩
  rfl

/-- Claim C3. The claim states that every variable-frame-rate segment merge
writes a concat manifest named by the segment's batch index and feeds it to
the external tool. The code cannot do this: at line 229 merge_images
evaluates `CONCAT_FILENAME_FORMAT % i`, but `i` is unbound there (the list
comprehension variable of line 210 does not escape its comprehension in
Python 3, and no global `i` exists), so every variable-frame-rate merge
raises NameError before any manifest is written — the batch index was meant
to be passed in and is not. The second conjunct shows the manifest generator
itself would pair each image with its probed duration, as the claim
describes, had it been reachable. -/
theorem C3_vfr_manifest_never_written :
    merge_images vfrTrack fsAllImages 0 1 0 (some ["0.033", "0.034"]) [] 0 =
      .error .nameErrorUnboundI ∧
    generate_segment_concat_file ["000000.png", "000001.png"] ["0.033", "0.034"] =
      .ok [concatHeaderLine,
        fileEntryTag ++ sq ++ "000000.png" ++ sq, durationEntryTag ++ "0.033",
        fileEntryTag ++ sq ++ "000001.png" ++ sq, durationEntryTag ++ "0.034",
        fileEntryTag ++ "000001.png"] := by
  exact ⟨rfl, rfl⟩

/-- Claim C6. If the segment file for index `i` already exists when the merge
loop reaches it, the loop body performs no waiting, no merging and no image
deletion: the step is a skip, its effect list is empty (so the filesystem is
unchanged), and the recorded segment name is the existing segment's index —
restarting a run is idempotent with respect to completed segments. -/
theorem C6_completed_segment_skipped (video : Track) (fs : FS) (s bs i : Nat)
    (durations : Option (List String)) (lines : List String) (ec : Int)
    (h : fs.segmentOn i = true) :
    merge_images_step video fs s bs i durations lines ec = .skipped i ∧
    stepEffects (merge_images_step video fs s bs i durations lines ec) = [] ∧
    fs.apply (stepEffects (merge_images_step video fs s bs i durations lines ec)) = fs ∧
    stepSegName (merge_images_step video fs s bs i durations lines ec) = some i := by
  have hstep : merge_images_step video fs s bs i durations lines ec = .skipped i := by
    unfold merge_images_step
    rw [if_pos h]
  refine ⟨hstep, ?_, ?_, ?_⟩ <;> rw [hstep] <;> rfl

/-- Witness for C6_completed_segment_skipped at a filesystem where segment 0
exists. -/
theorem C6_witness :
    fsSeg0.segmentOn 0 = true ∧
    (merge_images_step cfrTrack fsSeg0 0 2 0 none [] 0 = .skipped 0 ∧
      stepEffects (merge_images_step cfrTrack fsSeg0 0 2 0 none [] 0) = [] ∧
      fsSeg0.apply (stepEffects (merge_images_step cfrTrack fsSeg0 0 2 0 none [] 0)) = fsSeg0 ∧
      stepSegName (merge_images_step cfrTrack fsSeg0 0 2 0 none [] 0) = some 0) :=
  ⟨rfl, C6_completed_segment_skipped cfrTrack fsSeg0 0 2 0 none [] 0 rfl⟩

/-- Claim C10. The loop's wait polls only the existence of the batch's last
image file; but merge_images then asserts the existence of every image in
the batch range. So on a filesystem where the last image of segment `i`
exists (the completion signal has fired) while some image in the range is
missing, the step aborts with a missing-image error for some missing index
in the range — it does not wait for the missing intermediate image. -/
theorem C10_intermediate_image_missing_aborts (video : Track) (fs : FS)
    (s bs i m : Nat) (durations : Option (List String)) (lines : List String)
    (ec : Int) (hseg : fs.segmentOn i = false)
    (hlast : fs.imageOn (segEnd s bs video.frame_count i) = true)
    (hmb : segBegin s bs i ≤ m) (hme : m ≤ segEnd s bs video.frame_count i)
    (hmiss : fs.imageOn m = false) :
    ∃ n, segBegin s bs i ≤ n ∧ n ≤ segEnd s bs video.frame_count i ∧
      fs.imageOn n = false ∧
      merge_images_step video fs s bs i durations lines ec =
        .aborted (.missingImage n) := by
  set b := segBegin s bs i with hb
  set e := segEnd s bs video.frame_count i with he
  have hmem : m ∈ List.range' b (e + 1 - b) := by
    rw [List.mem_range'_1]
    omega
  rcases hfind : (List.range' b (e + 1 - b)).find? (fun n => ! fs.imageOn n) with _ | n
  · exfalso
    have := List.find?_eq_none.mp hfind m hmem
    simp [hmiss] at this
  · have hp := List.find?_some hfind
    have hnmem : n ∈ List.range' b (e + 1 - b) := List.mem_of_find?_eq_some hfind
    rw [List.mem_range'_1] at hnmem
    refine ⟨n, by omega, by omega, by simpa using hp, ?_⟩
    unfold merge_images_step
    rw [if_neg (by simp [hseg])]
    simp only [← hb, ← he]
    rw [if_pos hlast]
    unfold merge_images
    simp only [← hb, ← he]
    rw [hfind]

/-- Witness for C10 at a three-frame batch whose middle image is missing. -/
theorem C10_witness :
    fsGap.segmentOn 0 = false ∧
    fsGap.imageOn (segEnd 0 3 cfrTrack3.frame_count 0) = true ∧
    segBegin 0 3 0 ≤ 1 ∧ 1 ≤ segEnd 0 3 cfrTrack3.frame_count 0 ∧
    fsGap.imageOn 1 = false ∧
    (∃ n, segBegin 0 3 0 ≤ n ∧ n ≤ segEnd 0 3 cfrTrack3.frame_count 0 ∧
      fsGap.imageOn n = false ∧
      merge_images_step cfrTrack3 fsGap 0 3 0 none [] 0 =
        .aborted (.missingImage n)) :=
  ⟨rfl, rfl, by decide, by decide, rfl,
    C10_intermediate_image_missing_aborts cfrTrack3 fsGap 0 3 0 1 none [] 0
      rfl rfl (by decide) (by decide) rfl⟩

/-- Claim C4. The claim is false on the code: supplying the resume flag
together with the full new-run triple is not rejected — parsing succeeds and
the triple is silently ignored (the work directory is taken from the resume
value). -/
theorem C4_counterexample :
    parse_args rawBoth = .ok { rawBoth with work_directory := some ("/w") } := by
  rfl

/-- Claim C4 (amended). If the resume flag is absent (or empty, which Python
treats as falsy), the full triple of input path, work directory and output
path must be supplied: missing any of them is rejected, and supplying all
three is accepted. If the resume flag is supplied, parsing always succeeds:
the work directory is taken from the resume value and a simultaneously
supplied triple is not rejected but ignored. -/
theorem C4_resume_or_triple (r : RawArgs) :
    (pyTruthy r.resume = false →
      ((r.input_filename = none ∨ r.work_directory = none ∨ r.output_filename = none) →
        parse_args r =
          .error ("Input and output filenames must be specified if --resume is not set.")) ∧
      (r.input_filename ≠ none → r.work_directory ≠ none → r.output_filename ≠ none →
        parse_args r = .ok r)) ∧
    (pyTruthy r.resume = true →
      parse_args r = .ok { r with work_directory := r.resume }) := by
  constructor
  · intro hf
    constructor
    · intro hmiss
      simp only [parse_args, hf, Bool.false_eq_true, if_false]
      rw [if_pos]
      simp only [Bool.or_eq_true, Option.isNone_iff_eq_none]
      tauto
    · intro h1 h2 h3
      simp [parse_args, hf, Option.isNone_iff_eq_none, h1, h2, h3]
  · intro ht
    simp [parse_args, ht]

/-- Witness for C4_resume_or_triple on the resume side, at arguments that
supply both the resume flag and the full triple. -/
theorem C4_resume_or_triple_witness :
    pyTruthy rawBoth.resume = true ∧
    parse_args rawBoth = .ok { rawBoth with work_directory := rawBoth.resume } :=
  ⟨rfl, (C4_resume_or_triple rawBoth).2 rfl⟩

/-- Claim C5. If a persisted configuration exists and the freshly computed
configuration differs from it in any field, verify_config aborts with the
mismatch error, and the whole run performs no effect at all: no segment is
created, no image is deleted, and the persisted configuration file is not
written. -/
theorem C5_config_mismatch_aborts (a : ArgsState) (p c : PyConfig)
    (inputOn : String → Bool) (tracks : List Track) (probeLines : List String)
    (probeExit : Int) (progress : Nat → List String) (exits : Nat → Int)
    (muxLines : List String) (muxExit : Int) (fs : FS)
    (hc : make_config a = some c) (hne : p ≠ c) :
    verify_config a (some p) inputOn = .error .configMismatch ∧
    main_run a (some p) inputOn tracks probeLines probeExit progress exits
      muxLines muxExit fs = ([], some (.verifyErr .configMismatch)) := by
  have hv : verify_config a (some p) inputOn = .error .configMismatch := by
    unfold verify_config
    rw [hc]
    simp [hne]
  refine ⟨hv, ?_⟩
  unfold main_run
  rw [hv]

/-- Witness for C5_config_mismatch_aborts: a persisted configuration that
differs from the fresh one only in the start index. -/
theorem C5_config_mismatch_aborts_witness :
    make_config argsNew = some cfgNew ∧ cfgPrev ≠ cfgNew ∧
    (verify_config argsNew (some cfgPrev) (fun _ => true) = .error .configMismatch ∧
      main_run argsNew (some cfgPrev) (fun _ => true) [] [] 0 (fun _ => []) (fun _ => 0)
        [] 0 fsAllImages = ([], some (.verifyErr .configMismatch))) :=
  ⟨rfl, by decide,
    C5_config_mismatch_aborts argsNew cfgPrev cfgNew (fun _ => true) [] [] 0
      (fun _ => []) (fun _ => 0) [] 0 fsAllImages rfl (by decide)⟩

/-- Concatenating the 4096-byte chunks read from the file yields exactly the
file's content: the hash stream covers every byte once, in order. -/
theorem readChunks_flatten (l : List Nat) : (readChunks l).flatten = l := by
  induction l using readChunks.induct with
  | case1 => rw [readChunks, dif_pos rfl, List.flatten_nil]
  | case2 x h ih =>
    rw [readChunks, dif_neg h, List.flatten_cons, ih, List.take_append_drop]

/-- verify_config never touches the checksum of the arguments: whatever branch
succeeds, the returned arguments carry the caller's md5 digest and
computation count unchanged. -/
theorem verify_config_preserves_md5 (a : ArgsState) (persisted : Option PyConfig)
    (inputOn : String → Bool) (res : ArgsState × List Effect)
    (h : verify_config a persisted inputOn = .ok res) :
    res.1.md5 = a.md5 ∧ res.1.md5Computations = a.md5Computations := by
  rcases hmk : make_config a with _ | c
  · rcases persisted with _ | p
    · simp [verify_config, hmk] at h
    · simp only [verify_config, hmk] at h
      split_ifs at h
      simp only [Except.ok.injEq] at h
      rw [← h]
      exact ⟨rfl, rfl⟩
  · rcases persisted with _ | p
    · simp only [verify_config, hmk, Except.ok.injEq] at h
      rw [← h]
      exact ⟨rfl, rfl⟩
    · simp only [verify_config, hmk] at h
      split_ifs at h
      simp only [Except.ok.injEq] at h
      rw [← h]
      exact ⟨rfl, rfl⟩

/-- Claim C7. On a new run with an existing input file and valid numeric
arguments, Arguments performs exactly one checksum computation, whose input
stream — the file read in fixed 4096-byte chunks — concatenates to exactly
the file's content; on a resume, no checksum is computed at all, and
verify_config never alters the checksum or the computation count. -/
theorem C7_checksum_once (r : RawArgs) (inp wd outp : String) (content : List Nat)
    (fileContent : String → Option (List Nat)) (dirOn : String → Bool)
    (h1 : r.resume = none) (h2 : r.input_filename = some inp)
    (h3 : r.work_directory = some wd) (h4 : r.output_filename = some outp)
    (h5 : fileContent inp = some content)
    (h6 : 0 ≤ r.start_index) (h7 : 0 < r.batch_size) (h8 : 0 ≤ r.poll_time) :
    Arguments_init r fileContent dirOn =
      .ok { resume := none, input_filename := inp, work_directory := wd,
            output_filename := outp, start_index := r.start_index,
            batch_size := r.batch_size, poll_time := r.poll_time,
            md5 := some (infile_md5sum content), md5Computations := 1 } ∧
    infile_md5sum content = content ∧
    (∀ r2 : RawArgs, pyTruthy r2.resume = true → dirOn (r2.resume.getD "") = true →
      Arguments_init r2 fileContent dirOn =
        .ok { resume := r2.resume, input_filename := r2.input_filename.getD "",
              work_directory := r2.resume.getD "",
              output_filename := r2.output_filename.getD "",
              start_index := r2.start_index, batch_size := r2.batch_size,
              poll_time := r2.poll_time, md5 := none, md5Computations := 0 }) ∧
    (∀ (a : ArgsState) (persisted : Option PyConfig) (inputOn : String → Bool)
        (res : ArgsState × List Effect),
      verify_config a persisted inputOn = .ok res →
      res.1.md5 = a.md5 ∧ res.1.md5Computations = a.md5Computations) := by
  have hn6 : ¬ (r.start_index < 0) := not_lt.mpr h6
  have hn7 : ¬ (r.batch_size ≤ 0) := not_le.mpr h7
  have hn8 : ¬ (r.poll_time < 0) := not_lt.mpr h8
  refine ⟨?_, readChunks_flatten content, ?_, ?_⟩
  · simp [Arguments_init, parse_args, h1, h2, h3, h4, h5, pyTruthy, hn6, hn7, hn8]
  · intro r2 ht hdir
    simp [Arguments_init, parse_args, ht, hdir]
  · exact verify_config_preserves_md5

/-- Witness for C7_checksum_once at a new run over a three-byte input file. -/
theorem C7_checksum_once_witness :
    rawNew.resume = none ∧
    ((fun _ => some [7, 8, 9]) : String → Option (List Nat)) ("/in.mp4") = some [7, 8, 9] ∧
    (Arguments_init rawNew (fun _ => some [7, 8, 9]) (fun _ => true) =
      .ok { resume := none, input_filename := "/in.mp4", work_directory := "/work",
            output_filename := "/out.mp4", start_index := rawNew.start_index,
            batch_size := rawNew.batch_size, poll_time := rawNew.poll_time,
            md5 := some (infile_md5sum [7, 8, 9]), md5Computations := 1 } ∧
      infile_md5sum [7, 8, 9] = [7, 8, 9] ∧
      (∀ r2 : RawArgs, pyTruthy r2.resume = true → (fun (_ : String) => true) (r2.resume.getD "") = true →
        Arguments_init r2 (fun _ => some [7, 8, 9]) (fun _ => true) =
          .ok { resume := r2.resume, input_filename := r2.input_filename.getD "",
                work_directory := r2.resume.getD "",
                output_filename := r2.output_filename.getD "",
                start_index := r2.start_index, batch_size := r2.batch_size,
                poll_time := r2.poll_time, md5 := none, md5Computations := 0 }) ∧
      (∀ (a : ArgsState) (persisted : Option PyConfig) (inputOn : String → Bool)
          (res : ArgsState × List Effect),
        verify_config a persisted inputOn = .ok res →
        res.1.md5 = a.md5 ∧ res.1.md5Computations = a.md5Computations)) :=
  ⟨rfl, rfl,
    C7_checksum_once rawNew ("/in.mp4") ("/work") ("/out.mp4") [7, 8, 9]
      (fun _ => some [7, 8, 9]) (fun _ => true)
      rfl rfl rfl rfl rfl (by decide) (by decide) (by decide)⟩

/-- Claim C8. For a well-shaped track list (three tracks, video at index 1,
audio at index 2) and a successfully parsed probe stream: if the video
track's frame-rate mode is not CFR, the run succeeds with the probed
duration list exactly when its length equals the declared frame count and
aborts with the count-mismatch assertion otherwise; if the mode is CFR, no
duration list is produced. -/
theorem C8_vfr_duration_length (g v a : Track) (probeLines : List String)
    (ds : List String) (probeExit : Int)
    (hv : v.track_type = "Video") (ha : a.track_type = "Audio")
    (hok : getDurationsGo probeLines = .ok ds) :
    (v.frame_rate_mode ≠ "CFR" → v.frame_count = ds.length →
      verify_input_and_get_durations [g, v, a] probeLines probeExit = .ok (some ds)) ∧
    (v.frame_rate_mode ≠ "CFR" → v.frame_count ≠ ds.length →
      verify_input_and_get_durations [g, v, a] probeLines probeExit =
        .error (.assertDurationCount v.frame_count ds.length)) ∧
    (v.frame_rate_mode = "CFR" →
      verify_input_and_get_durations [g, v, a] probeLines probeExit = .ok none) := by
  have hget : get_durations probeLines probeExit = .ok ds := by
    unfold get_durations
    rw [hok]
  refine ⟨?_, ?_, ?_⟩
  · intro hm hcount
    simp [verify_input_and_get_durations, hv, ha, hm, hget, hcount]
  · intro hm hcount
    simp [verify_input_and_get_durations, hv, ha, hm, hget, hcount]
  · intro hm
    simp [verify_input_and_get_durations, hv, ha, hm]

/-- Witness for C8_vfr_duration_length at a zero-frame variable-frame-rate
input whose probe stream is empty (string primitives do not reduce inside
the kernel, so the witness uses the empty stream, for which the parse is
definitionally the empty duration list). -/
theorem C8_vfr_duration_length_witness :
    vfr0Track.track_type = "Video" ∧ audioTrack.track_type = "Audio" ∧
    getDurationsGo [] = .ok [] ∧
    ((vfr0Track.frame_rate_mode ≠ "CFR" → vfr0Track.frame_count = List.length ([] : List String) →
      verify_input_and_get_durations [generalTrack, vfr0Track, audioTrack] [] 0 =
        .ok (some [])) ∧
    (vfr0Track.frame_rate_mode ≠ "CFR" → vfr0Track.frame_count ≠ List.length ([] : List String) →
      verify_input_and_get_durations [generalTrack, vfr0Track, audioTrack] [] 0 =
        .error (.assertDurationCount vfr0Track.frame_count (List.length ([] : List String)))) ∧
    (vfr0Track.frame_rate_mode = "CFR" →
      verify_input_and_get_durations [generalTrack, vfr0Track, audioTrack] [] 0 = .ok none)) :=
  ⟨rfl, rfl, rfl,
    C8_vfr_duration_length generalTrack vfr0Track audioTrack [] [] 0 rfl rfl rfl⟩

end IncrementalMerge

namespace ExtractScript

/-- Claim C9. Under the extractor's preconditions (existing input path,
distinct output path, non-negative start index, frame count at least one),
the script performs exactly one external invocation, whose command line is
exactly the ffmpeg call with the frame-selection filter
`select=gte(n\,<start>)` and the `-vframes <count>` limiter, and a non-zero
exit of that single call is fatal; violating any precondition aborts before
any invocation. -/
theorem C9_extractor (inputOn : String → Bool) (inp outp : String) (s n ec : Int)
    (h1 : inputOn inp = true) (h2 : inp ≠ outp) (h3 : 0 ≤ s) (h4 : 1 ≤ n) :
    extract_main inputOn inp outp s n ec =
      ([extract_cmd inp outp s n],
        if ec = 0 then none else some (.processFailed ec)) ∧
    extract_cmd inp outp s n =
      ["ffmpeg", "-i", inp, "-y", "-hide_banner", "-loglevel", "error", "-vf",
        selectFilter s, "-vframes", toString n, outp] ∧
    selectFilter s = "select=gte(n\\," ++ toString s ++ ")" ∧
    (ec ≠ 0 →
      (extract_main inputOn inp outp s n ec).2 = some (.processFailed ec)) ∧
    (∀ i2 o2 : String, ∀ s2 n2 : Int, inputOn i2 = false →
      extract_main inputOn i2 o2 s2 n2 ec = ([], some .assertInputOn)) ∧
    (∀ i2 : String, ∀ s2 n2 : Int, inputOn i2 = true →
      extract_main inputOn i2 i2 s2 n2 ec = ([], some .assertDistinctPaths)) ∧
    (∀ i2 o2 : String, ∀ s2 n2 : Int, inputOn i2 = true → i2 ≠ o2 → s2 < 0 →
      extract_main inputOn i2 o2 s2 n2 ec = ([], some .assertStartNonneg)) ∧
    (∀ i2 o2 : String, ∀ s2 n2 : Int, inputOn i2 = true → i2 ≠ o2 → 0 ≤ s2 → n2 < 1 →
      extract_main inputOn i2 o2 s2 n2 ec = ([], some .assertNumFramesPos)) := by
  have hn3 : ¬ (s < 0) := not_lt.mpr h3
  have hn4 : ¬ (n < 1) := not_lt.mpr h4
  refine ⟨?_, rfl, rfl, ?_, ?_, ?_, ?_, ?_⟩
  · simp [extract_main, extract_parse_args, h1, h2, hn3, hn4]
  · intro hne
    simp [extract_main, extract_parse_args, h1, h2, hn3, hn4, hne]
  · intro i2 o2 s2 n2 hoff
    simp [extract_main, extract_parse_args, hoff]
  · intro i2 s2 n2 hon
    simp [extract_main, extract_parse_args, hon]
  · intro i2 o2 s2 n2 hon hne hneg
    simp [extract_main, extract_parse_args, hon, hne, hneg]
  · intro i2 o2 s2 n2 hon hne hpos hlt
    simp [extract_main, extract_parse_args, hon, hne, not_lt.mpr hpos, hlt]

/-- Witness for C9_extractor at a one-frame extraction from an existing
input. -/
theorem C9_extractor_witness :
    inOnSample ("/v.mp4") = true ∧ "/v.mp4" ≠ "/f.png" ∧
    (extract_main inOnSample ("/v.mp4") ("/f.png") 0 1 0 =
      ([extract_cmd ("/v.mp4") ("/f.png") 0 1],
        if (0 : Int) = 0 then none else some (.processFailed 0)) ∧
      extract_cmd ("/v.mp4") ("/f.png") 0 1 =
        ["ffmpeg", "-i", "/v.mp4", "-y", "-hide_banner", "-loglevel", "error", "-vf",
          selectFilter 0, "-vframes", toString (1 : Int), "/f.png"] ∧
      selectFilter 0 = "select=gte(n\\," ++ toString (0 : Int) ++ ")" ∧
      ((0 : Int) ≠ 0 →
        (extract_main inOnSample ("/v.mp4") ("/f.png") 0 1 0).2 = some (.processFailed 0)) ∧
      (∀ i2 o2 : String, ∀ s2 n2 : Int, inOnSample i2 = false →
        extract_main inOnSample i2 o2 s2 n2 0 = ([], some .assertInputOn)) ∧
      (∀ i2 : String, ∀ s2 n2 : Int, inOnSample i2 = true →
        extract_main inOnSample i2 i2 s2 n2 0 = ([], some .assertDistinctPaths)) ∧
      (∀ i2 o2 : String, ∀ s2 n2 : Int, inOnSample i2 = true → i2 ≠ o2 → s2 < 0 →
        extract_main inOnSample i2 o2 s2 n2 0 = ([], some .assertStartNonneg)) ∧
      (∀ i2 o2 : String, ∀ s2 n2 : Int, inOnSample i2 = true → i2 ≠ o2 → 0 ≤ s2 → n2 < 1 →
        extract_main inOnSample i2 o2 s2 n2 0 = ([], some .assertNumFramesPos))) :=
  ⟨rfl, by decide,
    C9_extractor inOnSample ("/v.mp4") ("/f.png") 0 1 0 rfl (by decide)
      (by decide) (by decide)⟩

end ExtractScript
